import Mathlib

/-!
Verification development for the `lev` evaluation harness
(agent–tool orchestration engine and scoring pipeline).

Python values are shallowly embedded: JSON payloads as an inductive `Json`
type (floats modelled as rationals), Python dicts as ordered association
lists (Python 3.7+ dicts preserve insertion order), `None` as `Option.none`,
and exceptions as `Except`.  Async functions are modelled as pure functions
of their awaited results (oracles passed as arguments).
-/

namespace Lev

/-- JSON values as produced by `json.loads`.  Numbers are modelled as
rationals (Python floats abstracted to exact arithmetic); objects keep the
key order of the source text, as Python dicts do. -/
inductive Json where
  | null : Json
  | bool (b : Bool) : Json
  | num (q : ℚ) : Json
  | str (s : String) : Json
  | arr (elems : List Json) : Json
  | obj (fields : List (String × Json)) : Json

mutual

/-- Decidable equality on JSON values (by mutual structural recursion). -/
def Json.decEq : (a b : Json) → Decidable (a = b)
  | .null, .null => isTrue rfl
  | .bool a, .bool b =>
    if h : a = b then isTrue (by rw [h]) else isFalse (by intro he; cases he; exact h rfl)
  | .num a, .num b =>
    if h : a = b then isTrue (by rw [h]) else isFalse (by intro he; cases he; exact h rfl)
  | .str a, .str b =>
    if h : a = b then isTrue (by rw [h]) else isFalse (by intro he; cases he; exact h rfl)
  | .arr a, .arr b =>
    match Json.decEqArr a b with
    | isTrue h => isTrue (by rw [h])
    | isFalse h => isFalse (by intro he; cases he; exact h rfl)
  | .obj a, .obj b =>
    match Json.decEqObj a b with
    | isTrue h => isTrue (by rw [h])
    | isFalse h => isFalse (by intro he; cases he; exact h rfl)
  | .null, .bool _ | .null, .num _ | .null, .str _ | .null, .arr _ | .null, .obj _
  | .bool _, .null | .bool _, .num _ | .bool _, .str _ | .bool _, .arr _ | .bool _, .obj _
  | .num _, .null | .num _, .bool _ | .num _, .str _ | .num _, .arr _ | .num _, .obj _
  | .str _, .null | .str _, .bool _ | .str _, .num _ | .str _, .arr _ | .str _, .obj _
  | .arr _, .null | .arr _, .bool _ | .arr _, .num _ | .arr _, .str _ | .arr _, .obj _
  | .obj _, .null | .obj _, .bool _ | .obj _, .num _ | .obj _, .str _ | .obj _, .arr _ =>
    isFalse (fun h => Json.noConfusion h)

/-- Decidable equality on JSON arrays. -/
def Json.decEqArr : (a b : List Json) → Decidable (a = b)
  | [], [] => isTrue rfl
  | [], _ :: _ => isFalse (fun h => List.noConfusion h)
  | _ :: _, [] => isFalse (fun h => List.noConfusion h)
  | x :: xs, y :: ys =>
    match Json.decEq x y with
    | isTrue h1 =>
      match Json.decEqArr xs ys with
      | isTrue h2 => isTrue (by rw [h1, h2])
      | isFalse h2 => isFalse (by intro he; injection he with _ he2; exact h2 he2)
    | isFalse h1 => isFalse (by intro he; injection he with he1 _; exact h1 he1)

/-- Decidable equality on JSON object field lists. -/
def Json.decEqObj : (a b : List (String × Json)) → Decidable (a = b)
  | [], [] => isTrue rfl
  | [], _ :: _ => isFalse (fun h => List.noConfusion h)
  | _ :: _, [] => isFalse (fun h => List.noConfusion h)
  | (k1, v1) :: xs, (k2, v2) :: ys =>
    if hk : k1 = k2 then
      match Json.decEq v1 v2 with
      | isTrue hv =>
        match Json.decEqObj xs ys with
        | isTrue h2 => isTrue (by rw [hk, hv, h2])
        | isFalse h2 => isFalse (by intro he; injection he with _ he2; exact h2 he2)
      | isFalse hv =>
        isFalse (by intro he; injection he with he1 _; injection he1 with _ hev; exact hv hev)
    else
      isFalse (by intro he; injection he with he1 _; injection he1 with hek _; exact hk hek)

end

instance : DecidableEq Json := Json.decEq

/-- Python `d[k]` / `k in d` on an ordered dict: first binding of the key. -/
def jlookup (key : String) : List (String × Json) → Option Json
  | [] => none
  | (k, v) :: rest => if k = key then some v else jlookup key rest

/-- Python truthiness of a JSON-decoded value (`bool(x)`). -/
def Json.truthy : Json → Bool
  | .null => false
  | .bool b => b
  | .num q => decide (q ≠ 0)
  | .str s => decide (s ≠ "")
  | .arr l => !l.isEmpty
  | .obj o => !o.isEmpty

/-- Whitespace skipping for the JSON reader. -/
def skipWs : List Char → List Char
  | c :: rest => if c = ' ' ∨ c = '\n' ∨ c = '\t' ∨ c = '\r' then skipWs rest else c :: rest
  | [] => []

/-- Left brace character (written via its code point). -/
def lbrace : Char := Char.ofNat 123

/-- Right brace character (written via its code point). -/
def rbrace : Char := Char.ofNat 125

/-- String body reader: consumes up to the closing quote, handling the
common escape sequences. -/
def readStringBody : List Char → List Char → Option (String × List Char)
  | acc, c :: rest =>
    if c = '"' then some (String.mk acc.reverse, rest)
    else if c = '\\' then
      match rest with
      | e :: rest2 =>
        if e = '"' ∨ e = '\\' ∨ e = '/' then readStringBody (e :: acc) rest2
        else if e = 'n' then readStringBody ('\n' :: acc) rest2
        else if e = 't' then readStringBody ('\t' :: acc) rest2
        else if e = 'r' then readStringBody ('\r' :: acc) rest2
        else none
      | [] => none
    else readStringBody (c :: acc) rest
  | _, [] => none

/-- Digit run reader returning the accumulated natural number and count. -/
def readDigits : List Char → Nat → Nat → (Nat × Nat × List Char)
  | c :: rest, acc, n =>
    if c.isDigit then readDigits rest (acc * 10 + (c.toNat - 48)) (n + 1)
    else (acc, n, c :: rest)
  | [], acc, n => (acc, n, [])

/-- Number reader for the JSON subset used by the harness: optional sign,
integer part, optional fractional part (exponents are not modelled). -/
def readNumber (cs : List Char) : Option (ℚ × List Char) :=
  let (neg, cs1) := match cs with
    | c :: rest => if c = '-' then (true, rest) else (false, cs)
    | [] => (false, cs)
  let (ip, n, cs2) := readDigits cs1 0 0
  if n = 0 then none
  else
    match cs2 with
    | c :: rest =>
      if c = '.' then
        let (fp, m, cs3) := readDigits rest 0 0
        if m = 0 then none
        else
          let q : ℚ := (ip : ℚ) + (fp : ℚ) / ((10 : ℚ) ^ m)
          some (if neg then -q else q, cs3)
      else some (if neg then -(ip : ℚ) else (ip : ℚ), c :: rest)
    | [] => some (if neg then -(ip : ℚ) else (ip : ℚ), [])

mutual

/-- Recursive-descent JSON value reader (`json.loads` model), fuelled. -/
def readValue : Nat → List Char → Option (Json × List Char)
  | 0, _ => none
  | fuel + 1, cs =>
    let cs := skipWs cs
    if "null".data.isPrefixOf cs then some (.null, cs.drop 4)
    else if "true".data.isPrefixOf cs then some (.bool true, cs.drop 4)
    else if "false".data.isPrefixOf cs then some (.bool false, cs.drop 5)
    else
      match cs with
      | [] => none
      | c :: rest =>
        if c = '"' then
          match readStringBody [] rest with
          | some (s, r) => some (.str s, r)
          | none => none
        else if c = '[' then readElems fuel (skipWs rest) []
        else if c = lbrace then readFields fuel (skipWs rest) []
        else
          match readNumber (c :: rest) with
          | some (q, r) => some (.num q, r)
          | none => none

/-- Array element reader (after the opening bracket). -/
def readElems : Nat → List Char → List Json → Option (Json × List Char)
  | 0, _, _ => none
  | fuel + 1, cs, acc =>
    match cs with
    | c :: rest =>
      if c = ']' ∧ acc.isEmpty then some (.arr [], rest)
      else
        match readValue fuel cs with
        | some (v, r) =>
          match skipWs r with
          | c2 :: rest2 =>
            if c2 = ',' then readElems fuel (skipWs rest2) (acc ++ [v])
            else if c2 = ']' then some (.arr (acc ++ [v]), rest2)
            else none
          | [] => none
        | none => none
    | [] => none

/-- Object field reader (after the opening brace). -/
def readFields : Nat → List Char → List (String × Json) → Option (Json × List Char)
  | 0, _, _ => none
  | fuel + 1, cs, acc =>
    match cs with
    | c :: rest =>
      if c = rbrace ∧ acc.isEmpty then some (.obj [], rest)
      else if c = '"' then
        match readStringBody [] rest with
        | some (k, r) =>
          match skipWs r with
          | c2 :: rest2 =>
            if c2 = ':' then
              match readValue fuel (skipWs rest2) with
              | some (v, r2) =>
                match skipWs r2 with
                | c3 :: rest3 =>
                  if c3 = ',' then readFields fuel (skipWs rest3) (acc ++ [(k, v)])
                  else if c3 = rbrace then some (.obj (acc ++ [(k, v)]), rest3)
                  else none
                | [] => none
              | none => none
            else none
          | [] => none
        | none => none
      else none
    | [] => none

end

/-- Strict JSON parse of a whole string: `json.loads` model.  `none` plays
the role of `json.JSONDecodeError`. -/
def Json.parse (s : String) : Option Json :=
  match readValue (2 * s.length + 2) s.data with
  | some (v, rest) => if skipWs rest = [] then some v else none
  | none => none

/-! ### McpClient.call_tool response normalization (src/lev/core/mcp.py) -/

/-- A content block of a raw MCP tool response: a `TextContent` block with
its text, or a block of any other content type (image, resource, ...). -/
inductive ContentItem where
  | text (s : String) : ContentItem
  | other : ContentItem
deriving DecidableEq

/-- The multi-block branch of `McpClient.call_tool`: each `TextContent`
block is parsed as JSON (kept as its raw text on parse failure); blocks of
other content types are skipped. -/
def parsed_items : List ContentItem → List Json
  | [] => []
  | ContentItem.text t :: rest =>
    (match Json.parse t with
     | some v => v
     | none => Json.str t) :: parsed_items rest
  | ContentItem.other :: rest => parsed_items rest

/-- The single-text-block branch of `McpClient.call_tool`: parse the text
as JSON; a JSON list is wrapped as a `result`, a JSON object gets a
`success: true` flag injected when absent, any other JSON value is wrapped
as a `result`, and non-JSON text is wrapped as `content`. -/
def single_text_result (t : String) : Json :=
  match Json.parse t with
  | some (Json.arr xs) => Json.obj [("result", Json.arr xs), ("success", Json.bool true)]
  | some (Json.obj kvs) =>
    if jlookup "success" kvs = none then Json.obj (kvs ++ [("success", Json.bool true)])
    else Json.obj kvs
  | some v => Json.obj [("result", v), ("success", Json.bool true)]
  | none => Json.obj [("content", Json.str t), ("success", Json.bool true)]

/-- The fallback result of `McpClient.call_tool` when no branch produced a
result. -/
def no_response_error : Json :=
  Json.obj [("success", Json.bool false), ("error", Json.str "No response from server")]

/-- The `elif result.content and len(result.content) > 0` branch chain of
`McpClient.call_tool`: more than one content block goes to the multi-block
parse, a single text block goes to the single-text parse, and anything else
(empty content, or a single non-text block) leaves `final_result` as `None`,
yielding the no-response error. -/
def call_tool_content_fallback (content : List ContentItem) : Json :=
  if content.isEmpty then no_response_error
  else if 1 < content.length then
    Json.obj [("result", Json.arr (parsed_items content)), ("success", Json.bool true)]
  else
    match content with
    | [ContentItem.text t] => single_text_result t
    | _ => no_response_error

/-- Normalization performed by `McpClient.call_tool` on a raw MCP tool
response, given its `structuredContent` attribute (`none` when absent,
modelled as an ordered dict otherwise) and its list of content blocks.
Translated from src/lev/core/mcp.py lines 182-234. -/
def call_tool_normalize (structuredContent : Option (List (String × Json)))
    (content : List ContentItem) : Json :=
  match structuredContent with
  | some sc =>
    if sc.isEmpty then call_tool_content_fallback content
    else Json.obj [("result", (jlookup "result" sc).getD (Json.obj sc)), ("success", Json.bool true)]
  | none => call_tool_content_fallback content

/-! ### McpHost.step (src/lev/mcp/mcp_host.py) -/

/-- A tool call requested by the model (`lev.core.llm_provider.ToolCall`):
id, tool name, and arguments. -/
structure ToolCall where
  id : String
  name : String
  arguments : List (String × Json)
deriving DecidableEq

/-- A model response (`lev.core.llm_provider.ModelResponse`): optional
assistant text and the requested tool calls (`[]` models both `None` and an
empty list, which are equally falsy in the loop conditions). -/
structure ModelResponse where
  content : Option String
  tool_calls : List ToolCall
deriving DecidableEq

/-- A tool-call failure record (`lev.mcp.mcp_host.ToolError`). -/
structure ToolError where
  tool_call_id : String
  server_name : Option String
  tool_name : String
  error : String
deriving DecidableEq

/-- The result descriptor of one `McpHost.step` (`lev.mcp.mcp_host.Turn`). -/
structure Turn where
  content : Option String
  had_tools : Bool
  tool_errors : Option (List ToolError)
  fatal_error : Option String
deriving DecidableEq

/-- Python `xs if xs else None` on an accumulated error list. -/
def optList {α : Type} (l : List α) : Option (List α) :=
  if l.isEmpty then none else some l

/-- The fatal-error message built by `McpHost.step` on budget exhaustion:
the Python f-string interpolates the configured budget. -/
def max_steps_fatal_error (max_steps : Nat) : String :=
  "Max steps (" ++ toString max_steps ++ ") reached with pending tool calls"

/-- The `while model_resp.tool_calls and counter < self.config.max_steps`
loop of `McpHost.step` (src/lev/mcp/mcp_host.py lines 100-127).  The agent's
follow-up responses after each tool-execution round, and the tool errors
collected in each round, are supplied as oracles indexed by the round
counter.  The recursion terminates because `max_steps - counter` shrinks. -/
def mcp_host_step_go (max_steps : Nat) (followups : Nat → ModelResponse)
    (errs : Nat → List ToolError) (counter : Nat) (model_resp : ModelResponse)
    (had_tools : Bool) (all_tool_errors : List ToolError) : Turn :=
  if hc : ¬model_resp.tool_calls.isEmpty ∧ counter < max_steps then
    mcp_host_step_go max_steps followups errs (counter + 1) (followups counter)
      true (all_tool_errors ++ errs counter)
  else if max_steps ≤ counter ∧ ¬model_resp.tool_calls.isEmpty then
    { content := none, had_tools := had_tools, tool_errors := optList all_tool_errors,
      fatal_error := some (max_steps_fatal_error max_steps) }
  else
    { content := model_resp.content, had_tools := had_tools,
      tool_errors := optList all_tool_errors, fatal_error := none }
termination_by max_steps - counter
decreasing_by have := hc.2; omega

/-- The non-exceptional path of `McpHost.step`: the initial model response
to the prompt, then the tool loop.  (The surrounding `try/except`, which
maps any raised exception to `Turn(content=None, had_tools=False,
fatal_error=str(e))`, and the chat-history side effects are not needed by
the claims about the returned `Turn`.) -/
def mcp_host_step (max_steps : Nat) (initial : ModelResponse)
    (followups : Nat → ModelResponse) (errs : Nat → List ToolError) : Turn :=
  mcp_host_step_go max_steps followups errs 0 initial false []

/-! ### Scoring aggregator (src/lev/scoring/__init__.py) -/

/-- Result of a scoring operation (`lev.scoring.Score`).  Python floats are
modelled as rationals. -/
structure Score where
  value : ℚ
  reason : String
deriving DecidableEq

/-- Context passed to scorers (`lev.scoring.ScoringContext`).  The chat
history is omitted (none of the modelled scorer cores read it); each entry
of `tool_calls` is modelled by its `tool_name` field (`none` when the key
is absent from the invocation record). -/
structure ScoringContext where
  answer : Option String := none
  tool_calls : List (Option String) := []
  expected : Option Json := none
deriving DecidableEq

/-- A scorer: display name plus its (awaited) scoring function. -/
structure Scorer where
  display_name : String
  score : ScoringContext → Score

/-- The `termcolor.colored(text, "green")` wrapper used in the aggregator's
reason trace. -/
def ansi_green (s : String) : String := "\x1b[32m" ++ s ++ "\x1b[0m"

/-- Rendering of a float for interpolation into reason strings (Python's
`str(float)` formatting is abstracted; no claim depends on it). -/
def float_str (q : ℚ) : String := toString q

/-- The positive-weight scorers kept by `ScoreFunction.score`
(`[(w, s) for w, s in self.weighted_scorers if w > 0]`). -/
def active_scorers (weighted_scorers : List (ℚ × Scorer)) : List (ℚ × Scorer) :=
  weighted_scorers.filter (fun p => 0 < p.1)

/-- Total weight of the active scorers. -/
def total_active_weight (weighted_scorers : List (ℚ × Scorer)) : ℚ :=
  ((active_scorers weighted_scorers).map Prod.fst).sum

/-- Model of `ScoreFunction.score` (src/lev/scoring/__init__.py lines 55-81).  The
second component instruments the model with the display names of the
scorers actually executed (the sequential loop invokes exactly the active
scorers); the early returns execute none. -/
def score_function (weighted_scorers : List (ℚ × Scorer)) (ctx : ScoringContext) :
    Score × List String :=
  if weighted_scorers.isEmpty then (⟨0, "No scorers configured"⟩, [])
  else
    let active := active_scorers weighted_scorers
    if active.isEmpty then (⟨0, "No active scorers (all weights are 0)"⟩, [])
    else
      let total_weight := (active.map Prod.fst).sum
      let subtotal := (active.map (fun p => p.1 * (p.2.score ctx).value)).sum
      let reasons := active.map (fun p =>
        p.2.display_name ++ ":" ++ ansi_green (float_str (p.2.score ctx).value) ++
          " (" ++ (p.2.score ctx).reason ++ ") ")
      let overall_score := if 0 < total_weight then subtotal / total_weight else 0
      (⟨overall_score, String.intercalate "\n" reasons⟩, active.map (fun p => p.2.display_name))

/-- The judge-response handling of `LLMCritiqueScorer.score`
(src/lev/scoring/llm/critique.py lines 47-64), as a function of the judge
model's reply.  `result.get("score", 0.0)` is returned unclamped.  Python
exception messages are abstracted in the diagnostic reasons; scores of
non-numeric JSON type (which would later raise in the aggregator's
arithmetic) are outside the model. -/
def llm_critique_result (content : Option String) : Score :=
  match content with
  | none => ⟨0, "Evaluation failed: Empty LLM result"⟩
  | some text =>
    if text = "" then ⟨0, "Evaluation failed: Empty LLM result"⟩
    else
      match Json.parse text with
      | some (Json.obj kvs) =>
        let score_value : ℚ :=
          match jlookup "score" kvs with
          | some (Json.num q) => q
          | some (Json.bool b) => if b then 1 else 0
          | _ => 0
        let justification :=
          match jlookup "justification" kvs with
          | some (Json.str s) => s
          | _ => "No justification provided"
        ⟨score_value, justification⟩
      | some _ => ⟨0, "Evaluation failed: judge reply is not a JSON object"⟩
      | none => ⟨0, "Evaluation failed: invalid JSON"⟩

/-! ### ToolCallCountScorer (src/lev/scoring/deterministic/tool_call_count.py) -/

/-- Per-tool call-count constraints (`calls: tool → {exact|min|max}`). -/
structure CountSpec where
  exact : Option Int := none
  min : Option Int := none
  max : Option Int := none
deriving DecidableEq

/-- Single-quote character (for Python `repr` of strings). -/
def sq : String := String.singleton (Char.ofNat 39)

/-- Count of calls to `tool` in the call sequence (`call_hist[tool]`). -/
def count_calls (call_sequence : List String) (tool : String) : Nat :=
  (call_sequence.filter (fun t => t = tool)).length

/-- The empty-`ctx.tool_calls` constraint scan of `ToolCallCountScorer.score`:
first failing requirement, in `calls` order.  Python's
`if exact_required and exact_required > 0` makes `exact=0` falsy. -/
def count_fail_no_calls : List (String × CountSpec) → Option Score
  | [] => none
  | (tool, spec) :: rest =>
    match spec.exact with
    | some e =>
      if e ≠ 0 ∧ 0 < e then some ⟨0, tool ++ ": expected " ++ toString e ++ ", got 0"⟩
      else if 0 < spec.min.getD 0 then
        some ⟨0, tool ++ ": min " ++ toString (spec.min.getD 0) ++ ", got 0"⟩
      else count_fail_no_calls rest
    | none =>
      if 0 < spec.min.getD 0 then
        some ⟨0, tool ++ ": min " ++ toString (spec.min.getD 0) ++ ", got 0"⟩
      else count_fail_no_calls rest

/-- The `"max" in spec and actual_count > spec["max"]` check. -/
def count_fail_max_check (tool : String) (spec : CountSpec) (actual_count : Int) : Option Score :=
  match spec.max with
  | some m =>
    if m < actual_count then
      some ⟨0, tool ++ ": max " ++ toString m ++ ", got " ++ toString actual_count⟩
    else none
  | none => none

/-- The count-constraint scan of `ToolCallCountScorer.score`: first failing
constraint, in `calls` order (`exact` overrides `min`/`max`). -/
def count_fail (calls : List (String × CountSpec)) (call_sequence : List String) : Option Score :=
  match calls with
  | [] => none
  | (tool, spec) :: rest =>
    let actual_count : Int := (count_calls call_sequence tool : Int)
    match spec.exact with
    | some expected =>
      if actual_count ≠ expected then
        some ⟨0, tool ++ ": expected exactly " ++ toString expected ++ ", got " ++
          toString actual_count⟩
      else count_fail rest call_sequence
    | none =>
      let min_fail : Option Score :=
        match spec.min with
        | some m =>
          if actual_count < m then
            some ⟨0, tool ++ ": min " ++ toString m ++ ", got " ++ toString actual_count⟩
          else none
        | none => none
      match min_fail with
      | some s => some s
      | none =>
        match count_fail_max_check tool spec actual_count with
        | some s => some s
        | none => count_fail rest call_sequence

/-- Python `str` of a list of strings, for the sequence-mismatch message. -/
def py_str_list_repr (l : List String) : String :=
  "[" ++ String.intercalate ", " (l.map (fun s => sq ++ s ++ sq)) ++ "]"

/-- The f-string `f"sequence mismatch: expected {expected_tools}, got
{filtered_sequence}"`. -/
def seq_mismatch_msg (expected_tools filtered_sequence : List String) : String :=
  "sequence mismatch: expected " ++ py_str_list_repr expected_tools ++ ", got " ++
    py_str_list_repr filtered_sequence

/-- Keys of the call histogram in insertion (first-occurrence) order. -/
def first_occurrence_keys (call_sequence : List String) : List String :=
  call_sequence.foldl (fun acc t => if acc.contains t then acc else acc ++ [t]) []

/-- Python `str` of the call histogram dict `call_hist`. -/
def py_hist_repr (call_sequence : List String) : String :=
  String.singleton lbrace ++
    String.intercalate ", "
      ((first_occurrence_keys call_sequence).map
        (fun t => sq ++ t ++ sq ++ ": " ++ toString (count_calls call_sequence t))) ++
    String.singleton rbrace

/-- Model of `ToolCallCountScorer.score` (src/lev/scoring/deterministic/tool_call_count.py
lines 32-77) as a function of the configuration and of the `tool_name`
fields of `ctx.tool_calls` (`none` models an invocation record without the
key, read as `"unknown"`).  The source's order check — for each index `i`
into the key list, fail unless `filtered_sequence[i]` exists and equals the
`i`-th key — is exactly the list prefix test. -/
def tool_call_count_score (calls : List (String × CountSpec)) (order_matters : Bool)
    (ctx_tool_calls : List (Option String)) : Score :=
  if ctx_tool_calls.isEmpty then
    match count_fail_no_calls calls with
    | some s => s
    | none => ⟨1, "no tool calls required or made"⟩
  else
    let call_sequence := ctx_tool_calls.map (fun tc => tc.getD "unknown")
    match count_fail calls call_sequence with
    | some s => s
    | none =>
      if order_matters then
        let expected_tools := calls.map Prod.fst
        let filtered_sequence := call_sequence.filter (fun t => expected_tools.contains t)
        if expected_tools.isPrefixOf filtered_sequence then
          ⟨1, "call counts satisfied: " ++ py_hist_repr call_sequence⟩
        else ⟨0, seq_mismatch_msg expected_tools filtered_sequence⟩
      else ⟨1, "call counts satisfied: " ++ py_hist_repr call_sequence⟩

/-- Predicate written from the words of claim C4, not from the source: the
first occurrences of the tools named in `keys` appear in `seq` in the key
order given (each named tool occurs, and first-occurrence indices are
strictly increasing along the keys). -/
def claim_first_occurrences_in_key_order (keys seq : List String) : Bool :=
  keys.all (fun k => seq.contains k) &&
    (keys.zip keys.tail).all (fun p => seq.indexOf p.1 < seq.indexOf p.2)

/-! ### Introspector and Controller (src/lev/controller.py) -/

/-- Message roles (`lev.common.roles.MessageRole`). -/
inductive MessageRole where
  | system
  | user
  | assistant
  | tool
  | developer
  | platform
deriving DecidableEq

/-- Top-level Python `str()` of a JSON-decoded value, used when a string
field of an introspector verdict carries a non-string value.  Rendering of
container values is abstracted (no claim depends on it). -/
def py_str_fallback : Json → String
  | .null => "None"
  | .bool b => if b then "True" else "False"
  | .num q => float_str q
  | .str s => s
  | .arr _ => "[...]"
  | .obj _ => String.singleton lbrace ++ "..." ++ String.singleton rbrace

/-- The dict returned by `Introspector.validate`: `{"valid": ...}` or
`{"valid": False, "followup": ...}`; a `none` field models an absent key. -/
structure ValidDict where
  valid_key : Option Bool := none
  followup_key : Option String := none
deriving DecidableEq

/-- The dict returned by `Introspector.plan_next`: the nested option of
`next_prompt_key` distinguishes an absent key (outer `none`) from a key
bound to Python `None` (inner `none`). -/
structure PlanDict where
  continue_key : Option Bool := none
  next_prompt_key : Option (Option String) := none
  reason_key : Option String := none
deriving DecidableEq

/-- Workflow read `v.get("valid", True)` (truthiness of the stored value,
defaulting to true when absent). -/
def valid_get_valid (v : ValidDict) : Bool := v.valid_key.getD true

/-- Workflow read `v.get("followup", "Clarify and answer precisely.")`. -/
def valid_get_followup (v : ValidDict) : String :=
  v.followup_key.getD "Clarify and answer precisely."

/-- Workflow read `plan.get("continue", False)`. -/
def plan_get_continue (p : PlanDict) : Bool := p.continue_key.getD false

/-- Workflow read `plan.get("next_prompt", "Proceed.")`: the default fires
only when the key is absent; a key bound to `None` yields `None`. -/
def plan_get_next_prompt (p : PlanDict) : Option String :=
  p.next_prompt_key.getD (some "Proceed.")

/-- Text handed to `json.loads` by the introspector: `None` and the empty
string are both replaced by the empty JSON object text (the Python
`introspect_resp.content or` fallback). -/
def introspect_text (content : Option String) : String :=
  match content with
  | none => "\x7b\x7d"
  | some s => if s = "" then "\x7b\x7d" else s

/-- Model of `Introspector.validate` (src/lev/controller.py lines 12-40) as a
function of the introspector adapter's outcome (`Except.error` models a
raised adapter exception, `Except.ok` the response content).  JSON parse
failures and non-object JSON (whose `.get` raises `AttributeError` into the
outer handler) both fail open to `{"valid": True}`. -/
def introspector_validate (agent_result : Except String (Option String)) : ValidDict :=
  match agent_result with
  | .error _ => { valid_key := some true }
  | .ok content =>
    match Json.parse (introspect_text content) with
    | some (Json.obj kvs) =>
      if !((jlookup "valid" kvs).map Json.truthy |>.getD true) then
        { valid_key := some false,
          followup_key := some
            (match jlookup "followup_question" kvs with
             | some (Json.str s) => s
             | some v => py_str_fallback v
             | none => "Please provide more details.") }
      else { valid_key := some true }
    | some _ => { valid_key := some true }
    | none => { valid_key := some true }

/-- Model of `Introspector.plan_next` (src/lev/controller.py lines 42-64) as a
function of the introspector adapter's outcome.  JSON parse failures and
non-object JSON fail open to `{"continue": False}`.  The raw
`decision.get("continue", False)` value is stored by its truthiness (the
only way the Workflow reads it). -/
def introspector_plan_next (agent_result : Except String (Option String)) : PlanDict :=
  match agent_result with
  | .error _ => { continue_key := some false }
  | .ok content =>
    match Json.parse (introspect_text content) with
    | some (Json.obj kvs) =>
      { continue_key := some ((jlookup "continue" kvs).map Json.truthy |>.getD false),
        next_prompt_key := some
          (match jlookup "next_prompt" kvs with
           | some (Json.str s) => some s
           | some Json.null => none
           | some v => some (py_str_fallback v)
           | none => none),
        reason_key := some
          (match jlookup "reason" kvs with
           | some (Json.str s) => s
           | some v => py_str_fallback v
           | none => "") }
    | some _ => { continue_key := some false }
    | none => { continue_key := some false }

/-- Outcome of one iteration of the `Controller.run` loop: either the run
returns an answer, or it injects the next `(role, prompt)` and carries the
`done` flag into the next iteration. -/
inductive RunStep where
  | finished (answer : String) : RunStep
  | inject (role : MessageRole) (prompt : Option String) (done : Bool) : RunStep
deriving DecidableEq

/-- One iteration of the `Controller.run` loop body (src/lev/controller.py
lines 78-101) as a function of the turn returned by `host.step` and of the
introspector verdicts (oracles for the awaited calls; only the one the
taken branch consults is read).  `self.introspector` is always set (the
constructor requires it), so the `if self.introspector:` guard is constant
true. -/
def controller_iteration (turn : Turn) (done : Bool) (validate_verdict : ValidDict)
    (plan_verdict : PlanDict) : RunStep :=
  if turn.fatal_error.isSome then .finished ("HostError: " ++ turn.fatal_error.getD "")
  else if !turn.had_tools then
    if done then .finished (turn.content.getD "")
    else if valid_get_valid validate_verdict then .finished (turn.content.getD "")
    else .inject .developer (some (valid_get_followup validate_verdict)) done
  else
    if plan_get_continue plan_verdict then
      .inject .developer (plan_get_next_prompt plan_verdict) done
    else .inject .developer (some "Synthesize the final answer using the tool results.") true

/-! ### ToolsAgent.call_tool error heuristic (src/lev/agents/tool.py) -/

/-- The content test `result["content"][:10].lower().startswith("error")`
(slice, lowercase, prefix test — on the character sequence). -/
def py_startswith_error (s : String) : Bool :=
  "error".data.isPrefixOf ((s.data.take 10).map Char.toLower)

/-- The `find_errors_in_content` workaround of `ToolsAgent.call_tool`
(src/lev/agents/tool.py lines 72-78): a normalized result whose `content`
text starts (case-insensitively) with `error` is re-classified as a
failure.  Normalized results only ever carry string `content` values, so
the non-string case (which would raise on slicing) is returned unchanged
here. -/
def find_errors_reclassify (find_errors_in_content : Bool)
    (result : List (String × Json)) : List (String × Json) :=
  if find_errors_in_content then
    match jlookup "content" result with
    | some (Json.str s) =>
      if py_startswith_error s then [("success", Json.bool false), ("error", Json.str s)]
      else result
    | some _ => result
    | none => result
  else result

/-- What `ToolsAgent.call_tool` records into the chat history and what it
returns, on the path where a client owned the tool and returned a
normalized `result` (src/lev/agents/tool.py lines 70-80). -/
structure ToolCallRecord where
  recorded_result : List (String × Json)
  returned_result : List (String × Json)
deriving DecidableEq

/-- The record-and-return tail of `ToolsAgent.call_tool`: the invocation is
recorded with the (possibly re-classified) result and the same value is
returned. -/
def tools_agent_record_and_return (find_errors_in_content : Bool)
    (result : List (String × Json)) : ToolCallRecord :=
  let r := find_errors_reclassify find_errors_in_content result
  { recorded_result := r, returned_result := r }

/-! ### LLMExtractValueScorer (src/lev/scoring/llm/extract_value.py) -/

/-- A Python scalar, as held in `expected` or produced by `_parse_to_type`. -/
inductive PyVal where
  | int (i : Int) : PyVal
  | float (q : ℚ) : PyVal
  | str (s : String) : PyVal
deriving DecidableEq

/-- Python `isinstance(x, (int, float))`. -/
def PyVal.isNumeric : PyVal → Bool
  | .int _ => true
  | .float _ => true
  | .str _ => false

/-- Python `float(x)` on a numeric value (unused on strings). -/
def PyVal.toRat : PyVal → ℚ
  | .int i => (i : ℚ)
  | .float q => q
  | .str _ => 0

/-- Python `str(x)` (float rendering abstracted as in `float_str`). -/
def PyVal.py_str : PyVal → String
  | .int i => toString i
  | .float q => float_str q
  | .str s => s

/-- Digits-only reading for `int(s)`. -/
def digits_to_nat (cs : List Char) : Option Nat :=
  if cs.isEmpty then none
  else if cs.all Char.isDigit then
    some (cs.foldl (fun a c => a * 10 + (c.toNat - 48)) 0)
  else none

/-- Python `int(s)` on the plain decimal forms (whitespace, underscores and
other bases are not modelled). -/
def parse_int (s : String) : Option Int :=
  match s.data with
  | [] => none
  | c :: rest =>
    if c = '-' then (digits_to_nat rest).map (fun n => -(n : Int))
    else if c = '+' then (digits_to_nat rest).map (fun n => (n : Int))
    else (digits_to_nat s.data).map (fun n => (n : Int))

/-- Python `float(s)` on the plain decimal forms (exponents, `inf`/`nan`,
bare leading/trailing dots are not modelled). -/
def parse_float (s : String) : Option ℚ :=
  let body : List Char :=
    match s.data with
    | c :: rest => if c = '+' then rest else s.data
    | [] => s.data
  match readNumber body with
  | some (q, []) => some q
  | _ => none

/-- Model of `LLMExtractValueScorer._parse_to_type`: when `expected` is numeric, try
`int(s)`, then `float(s)`, else keep the string; when `expected` is a
string, keep the string. -/
def parse_to_type (s : String) (expected : PyVal) : PyVal :=
  match expected with
  | .str _ => .str s
  | _ =>
    match parse_int s with
    | some i => .int i
    | none =>
      match parse_float s with
      | some q => .float q
      | none => .str s

/-- Model of `LLMExtractValueScorer._values_equal` (src/lev/scoring/llm/extract_value.py
lines 74-77): numeric pairs match within `1e-3`; any other pair matches by
case-insensitive equality of the `str()` forms. -/
def values_equal (a b : PyVal) : Bool :=
  if a.isNumeric && b.isNumeric then decide (|a.toRat - b.toRat| < 1 / 1000)
  else decide (a.py_str.toLower = b.py_str.toLower)

/-- Model of `LLMExtractValueScorer.score` (src/lev/scoring/llm/extract_value.py
lines 20-49) as a function of the configured `expected` value, of whether
the conversation holds user and assistant messages, and of the judge
extraction outcome (`Except.error` models any exception raised while
extracting, including the empty-reply `ValueError`; `Except.ok` carries the
stripped reply).  Exception messages are carried verbatim by the oracle. -/
def llm_extract_score (expected : Option PyVal)
    (has_user_messages has_assistant_messages : Bool)
    (extract_result : Except String String) : Score :=
  match expected with
  | none => ⟨0, "No expected value provided"⟩
  | some exp =>
    if !has_user_messages then ⟨0, "No user question found"⟩
    else if !has_assistant_messages then ⟨0, "No assistant answer found"⟩
    else
      match extract_result with
      | .error e => ⟨0, "Extraction failed: " ++ e⟩
      | .ok extracted_str =>
        let extracted := parse_to_type extracted_str exp
        let m := values_equal extracted exp
        ⟨if m then 1 else 0,
          "Expected: " ++ exp.py_str ++ ", Extracted: " ++ extracted.py_str ++
            ", Match: " ++ (if m then "True" else "False")⟩

/-! ### McpClient.connect (src/lev/core/mcp.py lines 75-110) -/

/-- Client connection state (`McpClient` attributes).  Live transport
objects (stdio context, session context, session) are abstracted as opaque
handles. -/
structure McpClientState where
  connected : Bool
  session : Option Nat
  stdio_context : Option Nat
  session_context : Option Nat
  instructions : Option String
deriving DecidableEq

/-- Observable side effects of `connect`. -/
inductive ConnectEffect where
  | spawn_subprocess : ConnectEffect
deriving DecidableEq

/-- Oracle for the transport handshake attempted on the not-yet-connected
path: the spawned contexts and initialized session, or a failure. -/
inductive ConnectOutcome where
  | handshake (stdio_ctx session_ctx session : Nat) (instructions : Option String) : ConnectOutcome
  | failure (msg : String) : ConnectOutcome
deriving DecidableEq

/-- Model of `McpClient.connect`: already-connected clients return the live session
unchanged (raising when the flag is set but the session is gone); otherwise
the subprocess is spawned and the handshake performed, with best-effort
cleanup on failure.  The returned triple is (result-or-raise, state after
the call, spawn effects). -/
def mcp_client_connect (server_name : String) (st : McpClientState)
    (outcome : ConnectOutcome) : Except String Nat × McpClientState × List ConnectEffect :=
  if st.connected then
    match st.session with
    | none => (.error "Client is marked as connected but session is None", st, [])
    | some s => (.ok s, st, [])
  else
    match outcome with
    | .handshake io sc s instr =>
      (.ok s,
       { connected := true, session := some s, stdio_context := some io,
         session_context := some sc, instructions := some (instr.getD "") },
       [.spawn_subprocess])
    | .failure msg =>
      (.error ("Failed to connect to MCP server " ++ sq ++ server_name ++ sq ++ ": " ++ msg),
       { connected := false, session := none, stdio_context := none,
         session_context := none, instructions := none },
       [.spawn_subprocess])

/-- A critique scorer whose judge model replied `{"score": 2}`: the scorer
with display name `LLM Critique Scorer` and the unclamped score it returns
on that reply. -/
def critique_judge_stub : Scorer :=
  ⟨"LLM Critique Scorer", fun _ => llm_critique_result (some "\x7b\"score\": 2\x7d")⟩

/-- A scorer stub used as a concrete configuration entry. -/
def constant_half_scorer : Scorer :=
  ⟨"stub scorer", fun _ => ⟨1 / 2, "constant"⟩⟩

/-- A scorer stub used as a concrete zero-weight configuration entry. -/
def constant_zero_scorer : Scorer :=
  ⟨"zero-weight stub", fun _ => ⟨0, "never run"⟩⟩

/-! ## Theorems -/

/-- Claim C1, counterexample.  The claim routes a response with exactly one
text content block (here alongside a non-text block) through the
single-text parse, which for the non-JSON text `"hi"` would yield
`{content: "hi", success: true}`; the code branches on the number of
content blocks of any type, so this response takes the multi-block path
and yields `{result: ["hi"], success: true}` instead. -/
theorem C1_counterexample :
    call_tool_normalize none [ContentItem.text "hi", ContentItem.other] =
      Json.obj [("result", Json.arr [Json.str "hi"]), ("success", Json.bool true)]
    ∧ call_tool_normalize none [ContentItem.text "hi", ContentItem.other] ≠
      Json.obj [("content", Json.str "hi"), ("success", Json.bool true)] := by
  refine ⟨rfl, ?_⟩
  intro h
  rw [show call_tool_normalize none [ContentItem.text "hi", ContentItem.other] =
    Json.obj [("result", Json.arr [Json.str "hi"]), ("success", Json.bool true)] from rfl] at h
  simp at h

/-- Claim C1 (amended): `McpClient.call_tool` normalization returns, for
every raw response: (1) if `structuredContent` is present and non-empty,
`{success: true, result: structuredContent.result if present else
structuredContent}`; (2) else if there is more than one content block (of
any type), `{result: <text blocks parsed independently, unparseable ones
kept as strings, non-text blocks skipped>, success: true}`; (3) else if the
single content block is text, the parsed-JSON case split (array wrapped as
`result`, object with `success: true` injected when the key is absent, any
other JSON value wrapped as `result`, non-JSON wrapped as `content`);
(4) otherwise (no content, or a single non-text block)
`{success: false, error: "No response from server"}`. -/
theorem C1_normalization (structuredContent : Option (List (String × Json)))
    (content : List ContentItem) :
    (∀ kvs, structuredContent = some kvs → kvs ≠ [] →
      call_tool_normalize structuredContent content =
        Json.obj [("result", (jlookup "result" kvs).getD (Json.obj kvs)),
          ("success", Json.bool true)])
    ∧ ((structuredContent = none ∨ structuredContent = some []) → 1 < content.length →
      call_tool_normalize structuredContent content =
        Json.obj [("result", Json.arr (parsed_items content)), ("success", Json.bool true)])
    ∧ ((structuredContent = none ∨ structuredContent = some []) →
       ∀ t, content = [ContentItem.text t] →
      ((∀ xs, Json.parse t = some (Json.arr xs) →
         call_tool_normalize structuredContent content =
           Json.obj [("result", Json.arr xs), ("success", Json.bool true)])
       ∧ (∀ kvs, Json.parse t = some (Json.obj kvs) →
         call_tool_normalize structuredContent content =
           (if jlookup "success" kvs = none then Json.obj (kvs ++ [("success", Json.bool true)])
            else Json.obj kvs))
       ∧ (∀ v, Json.parse t = some v → (∀ xs, v ≠ Json.arr xs) → (∀ kvs, v ≠ Json.obj kvs) →
         call_tool_normalize structuredContent content =
           Json.obj [("result", v), ("success", Json.bool true)])
       ∧ (Json.parse t = none →
         call_tool_normalize structuredContent content =
           Json.obj [("content", Json.str t), ("success", Json.bool true)])))
    ∧ ((structuredContent = none ∨ structuredContent = some []) → content.length ≤ 1 →
      (∀ t, content ≠ [ContentItem.text t]) →
      call_tool_normalize structuredContent content = no_response_error) := by
  have hfall : ∀ sc, (sc = none ∨ sc = some ([] : List (String × Json))) →
      call_tool_normalize sc content = call_tool_content_fallback content := by
    rintro sc (rfl | rfl) <;> simp [call_tool_normalize]
  refine ⟨?_, ?_, ?_, ?_⟩
  · rintro kvs rfl hne
    simp [call_tool_normalize, List.isEmpty_iff, hne]
  · intro hsc hlen
    rw [hfall _ hsc]
    obtain ⟨x, y, rest, rfl⟩ : ∃ x y rest, content = x :: y :: rest := by
      cases content with
      | nil => simp at hlen
      | cons x tl =>
        cases tl with
        | nil => simp at hlen
        | cons y rest => exact ⟨x, y, rest, rfl⟩
    rw [call_tool_content_fallback]
    rw [if_neg (by simp), if_pos (by simp only [List.length_cons]; omega)]
    intro t h
    simp at h
  · rintro hsc t rfl
    rw [hfall _ hsc]
    have hsingle : call_tool_content_fallback [ContentItem.text t] = single_text_result t := by
      rw [call_tool_content_fallback]; simp
    rw [hsingle]
    refine ⟨?_, ?_, ?_, ?_⟩
    · intro xs hx; rw [single_text_result, hx]
    · intro kvs hk; rw [single_text_result, hk]
    · intro v hv hna hno
      rw [single_text_result, hv]
      match v, hna, hno with
      | Json.null, _, _ => rfl
      | Json.bool b, _, _ => rfl
      | Json.num q, _, _ => rfl
      | Json.str s, _, _ => rfl
      | Json.arr xs, hna, _ => exact absurd rfl (hna xs)
      | Json.obj kvs, _, hno => exact absurd rfl (hno kvs)
    · intro hn; rw [single_text_result, hn]
  · intro hsc hlen hnt
    rw [hfall _ hsc]
    match content, hlen, hnt with
    | [], _, _ => rfl
    | [ContentItem.text t], _, hnt => exact absurd rfl (hnt t)
    | [ContentItem.other], _, _ => rfl
    | x :: y :: rest, hlen, _ => simp at hlen

/-- Witness for C1: a structured-content response evaluated concretely
through the first branch of the theorem. -/
theorem C1_witness :
    call_tool_normalize (some [("result", Json.num 7)]) [] =
      Json.obj [("result", Json.num 7), ("success", Json.bool true)] := by
  have h := (C1_normalization (some [("result", Json.num 7)]) []).1
    [("result", Json.num 7)] rfl (by simp)
  simpa [jlookup] using h

/-- Helper for C2: when every model response still carries tool calls, the
step loop runs down its remaining budget `k` and exits through the
exhaustion return, accumulating the per-round errors. -/
theorem mcp_host_step_go_exhausts (max_steps : Nat) (followups : Nat → ModelResponse)
    (errs : Nat → List ToolError) (hfol : ∀ i, (followups i).tool_calls ≠ []) :
    ∀ (k counter : Nat) (resp : ModelResponse) (had : Bool) (acc : List ToolError),
      counter + k = max_steps → resp.tool_calls ≠ [] →
      mcp_host_step_go max_steps followups errs counter resp had acc =
        { content := none, had_tools := if k = 0 then had else true,
          tool_errors := optList (acc ++ (List.range' counter k).flatMap errs),
          fatal_error := some (max_steps_fatal_error max_steps) } := by
  intro k
  induction k with
  | zero =>
    intro counter resp had acc hck hresp
    have hne : ¬resp.tool_calls.isEmpty := by simpa [List.isEmpty_eq_false] using hresp
    rw [mcp_host_step_go]
    rw [dif_neg (fun h => absurd h.2 (by omega))]
    rw [if_pos ⟨by omega, hne⟩]
    simp [List.range']
  | succ k ih =>
    intro counter resp had acc hck hresp
    have hne : ¬resp.tool_calls.isEmpty := by simpa [List.isEmpty_eq_false] using hresp
    rw [mcp_host_step_go]
    rw [dif_pos ⟨hne, by omega⟩]
    rw [ih (counter + 1) (followups counter) true (acc ++ errs counter) (by omega) (hfol counter)]
    have h1 : (if k = 0 then true else true) = true := by cases k <;> rfl
    have h2 : (acc ++ errs counter) ++ (List.range' (counter + 1) k).flatMap errs =
        acc ++ (List.range' counter (k + 1)).flatMap errs := by
      rw [List.range'_succ, List.flatMap_cons, List.append_assoc]
    rw [h1, h2]
    simp

/-- Claim C2 (amended): whenever `McpHost.step` exhausts a positive
max-steps budget while the model's latest response still contains tool
calls, it returns a `Turn` whose content is `None`, whose `had_tools` is
true, whose `tool_errors` carries the accumulated tool errors (`None` when
none accumulated), and whose `fatal_error` equals the interpolated string
`f"Max steps ({max_steps}) reached with pending tool calls"` — not the
constant `"Max steps reached with pending tool calls"`. -/
theorem C2_max_steps_turn (max_steps : Nat) (initial : ModelResponse)
    (followups : Nat → ModelResponse) (errs : Nat → List ToolError)
    (hms : 1 ≤ max_steps) (hinit : initial.tool_calls ≠ [])
    (hfol : ∀ i, (followups i).tool_calls ≠ []) :
    mcp_host_step max_steps initial followups errs =
      { content := none, had_tools := true,
        tool_errors := optList ((List.range max_steps).flatMap errs),
        fatal_error :=
          some ("Max steps (" ++ toString max_steps ++ ") reached with pending tool calls") } := by
  rw [mcp_host_step]
  rw [mcp_host_step_go_exhausts max_steps followups errs hfol max_steps 0 initial false []
    (by omega) hinit]
  rw [List.range_eq_range']
  have h0 : max_steps ≠ 0 := by omega
  simp [h0, max_steps_fatal_error]

/-- Claim C2, counterexample.  With budget 2 and a model that always
requests tools, the fatal error is the interpolated
`"Max steps (2) reached with pending tool calls"`, not the constant string
the claim states. -/
theorem C2_counterexample :
    (mcp_host_step 2 ⟨none, [⟨"1", "get", []⟩]⟩ (fun _ => ⟨none, [⟨"1", "get", []⟩]⟩)
        (fun _ => [])).fatal_error = some "Max steps (2) reached with pending tool calls"
    ∧ (mcp_host_step 2 ⟨none, [⟨"1", "get", []⟩]⟩ (fun _ => ⟨none, [⟨"1", "get", []⟩]⟩)
        (fun _ => [])).fatal_error ≠ some "Max steps reached with pending tool calls" := by
  have he : (mcp_host_step 2 ⟨none, [⟨"1", "get", []⟩]⟩ (fun _ => ⟨none, [⟨"1", "get", []⟩]⟩)
      (fun _ => [])).fatal_error = some "Max steps (2) reached with pending tool calls" := by
    simp [mcp_host_step, mcp_host_step_go, optList, max_steps_fatal_error]
    rfl
  refine ⟨he, ?_⟩
  rw [he]
  decide

/-- Witness for C2: a budget of 3 with an always-tools model, evaluated
concretely through the theorem. -/
theorem C2_witness :
    mcp_host_step 3 ⟨none, [⟨"a", "lookup", []⟩]⟩ (fun _ => ⟨none, [⟨"a", "lookup", []⟩]⟩)
        (fun _ => []) =
      { content := none, had_tools := true, tool_errors := none,
        fatal_error := some "Max steps (3) reached with pending tool calls" } := by
  have h := C2_max_steps_turn 3 ⟨none, [⟨"a", "lookup", []⟩]⟩
    (fun _ => ⟨none, [⟨"a", "lookup", []⟩]⟩) (fun _ => []) (by omega) (by simp) (fun i => by simp)
  rw [h]
  rfl

/-- Claim C3 (amended): for every scoring configuration whose
positive-weight scorers have total weight > 0, `ScoreFunction.score`
returns value = (Σ over active scorers of weight · score) / (total active
weight), and this value lies in [0,1] *provided every active scorer's value
lies in [0,1]* — the aggregator itself never clamps, so an out-of-range
scorer value (e.g. an unclamped LLM critique score) propagates. -/
theorem C3_weighted_average (ws : List (ℚ × Scorer)) (ctx : ScoringContext)
    (hw : 0 < total_active_weight ws) :
    (score_function ws ctx).1.value =
      ((active_scorers ws).map (fun p => p.1 * (p.2.score ctx).value)).sum /
        total_active_weight ws
    ∧ ((∀ p ∈ active_scorers ws, 0 ≤ (p.2.score ctx).value ∧ (p.2.score ctx).value ≤ 1) →
      0 ≤ (score_function ws ctx).1.value ∧ (score_function ws ctx).1.value ≤ 1) := by
  have hwsne : ws.isEmpty = false := by
    rcases ws with _ | ⟨a, l⟩
    · exfalso; simp [total_active_weight, active_scorers] at hw
    · rfl
  have hactne : (active_scorers ws).isEmpty = false := by
    rcases h : active_scorers ws with _ | ⟨a, l⟩
    · exfalso; rw [total_active_weight, h] at hw; simp at hw
    · rfl
  have hw' : 0 < ((active_scorers ws).map Prod.fst).sum := by
    rwa [total_active_weight] at hw
  have hval : (score_function ws ctx).1.value =
      ((active_scorers ws).map (fun p => p.1 * (p.2.score ctx).value)).sum /
        total_active_weight ws := by
    simp only [score_function, hwsne, Bool.false_eq_true, if_false, hactne]
    rw [if_pos hw']
    rw [total_active_weight]
  refine ⟨hval, fun hbd => ?_⟩
  have hpos : ∀ p ∈ active_scorers ws, 0 < p.1 := by
    intro p hp
    have := (List.mem_filter.1 hp).2
    exact of_decide_eq_true this
  have hsub_nonneg : 0 ≤ ((active_scorers ws).map (fun p => p.1 * (p.2.score ctx).value)).sum := by
    apply List.sum_nonneg
    intro x hx
    obtain ⟨p, hp, rfl⟩ := List.mem_map.1 hx
    exact mul_nonneg (le_of_lt (hpos p hp)) (hbd p hp).1
  have hsub_le : ((active_scorers ws).map (fun p => p.1 * (p.2.score ctx).value)).sum ≤
      ((active_scorers ws).map Prod.fst).sum := by
    apply List.sum_le_sum
    intro p hp
    calc p.1 * (p.2.score ctx).value ≤ p.1 * 1 :=
          mul_le_mul_of_nonneg_left (hbd p hp).2 (le_of_lt (hpos p hp))
      _ = p.1 := mul_one _
  rw [hval, total_active_weight]
  constructor
  · exact div_nonneg hsub_nonneg (le_of_lt hw')
  · exact (div_le_one hw').mpr hsub_le

/-- Claim C3, counterexample.  A single unit-weight critique scorer whose
judge replied `{"score": 2}` is a configuration with total active weight
1 > 0, yet `ScoreFunction.score` returns value 2, outside [0,1]: the code
neither clamps the judge's score nor the aggregate. -/
theorem C3_counterexample :
    0 < total_active_weight [((1 : ℚ), critique_judge_stub)]
    ∧ (score_function [((1 : ℚ), critique_judge_stub)] {}).1.value = 2
    ∧ ¬(score_function [((1 : ℚ), critique_judge_stub)] {}).1.value ≤ 1 := by
  have h : llm_critique_result (some "\x7b\"score\": 2\x7d") =
      ⟨2, "No justification provided"⟩ := rfl
  have hv : (score_function [((1 : ℚ), critique_judge_stub)] {}).1.value = 2 := by
    simp [score_function, active_scorers, critique_judge_stub, h]
  refine ⟨by norm_num [total_active_weight, active_scorers], hv, ?_⟩
  rw [hv]
  norm_num

/-- Witness for C3: a unit-weight scorer returning 1/2 keeps the aggregate
inside [0,1]. -/
theorem C3_witness :
    0 ≤ (score_function [((1 : ℚ), constant_half_scorer)] {}).1.value
    ∧ (score_function [((1 : ℚ), constant_half_scorer)] {}).1.value ≤ 1 := by
  refine (C3_weighted_average [((1 : ℚ), constant_half_scorer)] {}
    (by norm_num [total_active_weight, active_scorers])).2 ?_
  intro p hp
  have hep : p = ((1 : ℚ), constant_half_scorer) := by
    simpa [active_scorers] using hp
  rw [hep]
  norm_num [constant_half_scorer]

/-- Claim C10: `ScoreFunction.score` invokes no scorer (instrumented second
component `[]`) and returns value 0 when the weighted-scorer list is empty
(reason `"No scorers configured"`) or when every configured weight is ≤ 0
(reason `"No active scorers (all weights are 0)"`). -/
theorem C10_early_returns (ws : List (ℚ × Scorer)) (ctx : ScoringContext) :
    (ws = [] → score_function ws ctx = (⟨0, "No scorers configured"⟩, []))
    ∧ (ws ≠ [] → (∀ p ∈ ws, p.1 ≤ 0) →
      score_function ws ctx = (⟨0, "No active scorers (all weights are 0)"⟩, [])) := by
  constructor
  · rintro rfl; rfl
  · intro hne hnp
    have hact : active_scorers ws = [] := by
      rw [active_scorers, List.filter_eq_nil_iff]
      intro p hp
      simpa using not_lt.2 (hnp p hp)
    have hws : ws.isEmpty = false := by rwa [List.isEmpty_eq_false]
    simp [score_function, hws, hact]

/-- Witness for C10: both early returns evaluated concretely through the
theorem. -/
theorem C10_witness :
    score_function [] {} = (⟨0, "No scorers configured"⟩, [])
    ∧ score_function [((0 : ℚ), constant_zero_scorer)] {} =
      (⟨0, "No active scorers (all weights are 0)"⟩, []) := by
  refine ⟨(C10_early_returns [] {}).1 rfl,
    (C10_early_returns [((0 : ℚ), constant_zero_scorer)] {}).2 (by simp) ?_⟩
  intro p hp
  simp at hp
  simp [hp]

/-- Claim C4 (amended): for `order_matters = true`, non-empty
`ctx.tool_calls`, and all count constraints satisfied, the scorer returns
1.0 if and only if the *whole subsequence* of the call sequence restricted
to the configured tool names *begins with* the key order of `calls` (the
`i`-th such call equals the `i`-th key) — a strictly stronger requirement
than the claimed first-occurrence order; otherwise it returns 0.0 with the
sequence-mismatch diagnostic. -/
theorem C4_order_check (calls : List (String × CountSpec)) (ctx_tool_calls : List (Option String))
    (h1 : ctx_tool_calls ≠ [])
    (h2 : count_fail calls (ctx_tool_calls.map (fun tc => tc.getD "unknown")) = none) :
    ((tool_call_count_score calls true ctx_tool_calls).value = 1 ↔
      (calls.map Prod.fst).isPrefixOf
        ((ctx_tool_calls.map (fun tc => tc.getD "unknown")).filter
          (fun t => (calls.map Prod.fst).contains t)) = true)
    ∧ ((calls.map Prod.fst).isPrefixOf
        ((ctx_tool_calls.map (fun tc => tc.getD "unknown")).filter
          (fun t => (calls.map Prod.fst).contains t)) = false →
      tool_call_count_score calls true ctx_tool_calls =
        ⟨0, seq_mismatch_msg (calls.map Prod.fst)
          ((ctx_tool_calls.map (fun tc => tc.getD "unknown")).filter
            (fun t => (calls.map Prod.fst).contains t))⟩) := by
  have hne : ctx_tool_calls.isEmpty = false := by rwa [List.isEmpty_eq_false]
  rw [tool_call_count_score, hne]
  simp only [Bool.false_eq_true, if_false, h2, if_pos rfl]
  by_cases hp : (calls.map Prod.fst).isPrefixOf
      ((ctx_tool_calls.map (fun tc => tc.getD "unknown")).filter
        (fun t => (calls.map Prod.fst).contains t)) = true
  · rw [if_pos hp]
    exact ⟨⟨fun _ => hp, fun _ => rfl⟩, fun hf => by rw [hp] at hf; cases hf⟩
  · rw [if_neg hp]
    constructor
    · constructor
      · intro hv; exfalso; norm_num at hv
      · intro ht; exact absurd ht hp
    · intro _; rfl

/-- Claim C4, counterexample.  Keys `[a, b]` each with `min 1`,
`order_matters = true`, call sequence `[a, a, b]`: all count constraints
hold and the first occurrences of `a` and `b` appear in key order, yet the
scorer returns 0.0 (with the sequence-mismatch diagnostic), because the
second call restricted to the named tools is `a` where the code demands
`b`. -/
theorem C4_counterexample :
    count_fail [("a", {min := some 1}), ("b", {min := some 1})] ["a", "a", "b"] = none
    ∧ claim_first_occurrences_in_key_order ["a", "b"] ["a", "a", "b"] = true
    ∧ (tool_call_count_score [("a", {min := some 1}), ("b", {min := some 1})] true
        [some "a", some "a", some "b"]).value = 0
    ∧ ¬(tool_call_count_score [("a", {min := some 1}), ("b", {min := some 1})] true
        [some "a", some "a", some "b"]).value = 1 := by
  have hs : tool_call_count_score [("a", {min := some 1}), ("b", {min := some 1})] true
      [some "a", some "a", some "b"] = ⟨0, seq_mismatch_msg ["a", "b"] ["a", "a", "b"]⟩ := rfl
  refine ⟨rfl, rfl, by rw [hs], ?_⟩
  rw [hs]
  norm_num

/-- Witness for C4: a single exactly-once tool called once, in order,
scores 1.0 through the theorem. -/
theorem C4_witness :
    (tool_call_count_score [("a", {exact := some 1})] true [some "a"]).value = 1 := by
  have h := (C4_order_check [("a", {exact := some 1})] [some "a"] (by simp) rfl).1
  exact h.mpr rfl

/-- Claim C5 (amended): after a turn that executed tools, the Workflow
injects a developer-role message carrying `plan.get("next_prompt",
"Proceed.")` whenever the plan verdict's `continue` is truthy — even when
`next_prompt` is unset or `None` — leaving `done` unchanged; only when
`continue` is falsy or absent does it inject the default synthesis
instruction `"Synthesize the final answer using the tool results."` with
the developer role and set `done := true`, after which the next tools-free
answer is returned unconditionally (without consulting the validator). -/
theorem C5_post_tool_injection (turn : Turn) (done : Bool) (v : ValidDict) (plan : PlanDict)
    (hf : turn.fatal_error = none) (ht : turn.had_tools = true) :
    (plan_get_continue plan = true →
      controller_iteration turn done v plan =
        .inject .developer (plan_get_next_prompt plan) done)
    ∧ (plan_get_continue plan = false →
      controller_iteration turn done v plan =
        .inject .developer (some "Synthesize the final answer using the tool results.") true)
    ∧ (∀ turn2 : Turn, turn2.fatal_error = none → turn2.had_tools = false →
      controller_iteration turn2 true v plan = .finished (turn2.content.getD "")) := by
  refine ⟨?_, ?_, ?_⟩
  · intro hcont
    simp [controller_iteration, hf, ht, hcont]
  · intro hcont
    simp [controller_iteration, hf, ht, hcont]
  · intro turn2 hf2 ht2
    simp [controller_iteration, hf2, ht2]

/-- Claim C5, counterexample.  A plan verdict with `continue = true` and
`next_prompt` present but `None` makes the Workflow inject
`(developer, None)` and keep `done = false` — neither a message carrying a
set `next_prompt` (it is `None`), nor the default synthesis instruction
with `done = true` that the claim demands for every other case. -/
theorem C5_counterexample :
    controller_iteration ⟨none, true, none, none⟩ false {} ⟨some true, some none, none⟩ =
      .inject .developer none false
    ∧ controller_iteration ⟨none, true, none, none⟩ false {} ⟨some true, some none, none⟩ ≠
      .inject .developer (some "Synthesize the final answer using the tool results.") true := by
  refine ⟨rfl, ?_⟩
  intro h
  rw [show controller_iteration ⟨none, true, none, none⟩ false {} ⟨some true, some none, none⟩ =
    .inject .developer none false from rfl] at h
  simp at h

/-- Witness for C5: a continue-false verdict injects the synthesis
instruction, evaluated concretely through the theorem. -/
theorem C5_witness :
    controller_iteration ⟨none, true, none, none⟩ false {} ⟨some false, none, none⟩ =
      .inject .developer (some "Synthesize the final answer using the tool results.") true :=
  (C5_post_tool_injection ⟨none, true, none, none⟩ false {} ⟨some false, none, none⟩
    rfl rfl).2.1 rfl

/-- Claim C6: for every introspector model output that is not parseable as
strict JSON, and for every introspector adapter error, `validate` returns
the fail-open verdict `{"valid": True}` and `plan_next` returns
`{"continue": False}`; both functions are total (no exception escapes). -/
theorem C6_fail_open :
    (∀ e : String,
      introspector_validate (.error e) = { valid_key := some true }
      ∧ introspector_plan_next (.error e) = { continue_key := some false })
    ∧ (∀ content : Option String, Json.parse (introspect_text content) = none →
      introspector_validate (.ok content) = { valid_key := some true }
      ∧ introspector_plan_next (.ok content) = { continue_key := some false }) := by
  refine ⟨fun e => ⟨rfl, rfl⟩, fun content h => ⟨?_, ?_⟩⟩
  · rw [introspector_validate, h]
  · rw [introspector_plan_next, h]

/-- Witness for C6: an adapter error and a non-JSON reply, evaluated
concretely through the theorem. -/
theorem C6_witness :
    introspector_validate (.error "adapter down") = { valid_key := some true }
    ∧ introspector_plan_next (.ok (some "not json")) = { continue_key := some false } :=
  ⟨(C6_fail_open.1 "adapter down").1, (C6_fail_open.2 (some "not json") rfl).2⟩

/-- Claim C7: for every normalized tool result whose `content` field is a
text beginning, case-insensitively, with `error`, `ToolsAgent.call_tool`
(with its default `find_errors_in_content = True`) re-classifies the result
as `{success: false, error: <content>}` before recording the invocation and
returning it — the recorded and returned values are both the re-classified
dict. -/
theorem C7_error_content_reclassified (result : List (String × Json)) (s : String)
    (hc : jlookup "content" result = some (Json.str s))
    (hs : "error".data.isPrefixOf (s.data.map Char.toLower) = true) :
    tools_agent_record_and_return true result =
      ⟨[("success", Json.bool false), ("error", Json.str s)],
        [("success", Json.bool false), ("error", Json.str s)]⟩ := by
  have hpe : py_startswith_error s = true := by
    rw [py_startswith_error, List.map_take]
    rw [List.isPrefixOf_iff_prefix] at hs ⊢
    rw [List.prefix_take_iff]
    exact ⟨hs, by decide⟩
  rw [tools_agent_record_and_return, find_errors_reclassify]
  simp [hc, hpe]

/-- Witness for C7: a normalized result with content
`"Error: no such file"`, evaluated concretely through the theorem. -/
theorem C7_witness :
    tools_agent_record_and_return true
        [("content", Json.str "Error: no such file"), ("success", Json.bool true)] =
      ⟨[("success", Json.bool false), ("error", Json.str "Error: no such file")],
        [("success", Json.bool false), ("error", Json.str "Error: no such file")]⟩ :=
  C7_error_content_reclassified _ "Error: no such file" rfl (by decide)

/-- Claim C8: `LLMExtractValueScorer.score` returns
`Score(0, "No expected value provided")` whenever `expected` is missing;
otherwise (inputs present, extraction succeeded) it compares the extracted
value against `expected`, two numeric values matching iff `|a − b| < 1e-3`
and any other pair matching iff their lowercased `str()` forms are equal,
returning value 1.0 on a match and 0.0 otherwise. -/
theorem C8_extract_value (hu ha : Bool) (r : Except String String) :
    llm_extract_score none hu ha r = ⟨0, "No expected value provided"⟩
    ∧ (∀ (exp : PyVal) (s : String),
      llm_extract_score (some exp) true true (.ok s) =
        ⟨if values_equal (parse_to_type s exp) exp then 1 else 0,
          "Expected: " ++ exp.py_str ++ ", Extracted: " ++ (parse_to_type s exp).py_str ++
            ", Match: " ++ (if values_equal (parse_to_type s exp) exp then "True" else "False")⟩)
    ∧ (∀ a b : PyVal, a.isNumeric = true → b.isNumeric = true →
      (values_equal a b = true ↔ |a.toRat - b.toRat| < 1 / 1000))
    ∧ (∀ a b : PyVal, ¬(a.isNumeric = true ∧ b.isNumeric = true) →
      (values_equal a b = true ↔ a.py_str.toLower = b.py_str.toLower)) := by
  refine ⟨rfl, fun exp s => rfl, fun a b hna hnb => ?_, fun a b hn => ?_⟩
  · rw [values_equal, hna, hnb]
    simp
  · have hfalse : (a.isNumeric && b.isNumeric) = false := by
      cases hA : a.isNumeric <;> cases hB : b.isNumeric <;> simp_all
    rw [values_equal, hfalse]
    simp

/-- Witness for C8: integer 1 against float 1.0005 matches within the
tolerance; a missing expected value yields the fixed diagnostic — both
evaluated concretely through the theorem. -/
theorem C8_witness :
    values_equal (PyVal.int 1) (PyVal.float (2001 / 2000)) = true
    ∧ llm_extract_score none true true (.ok "x") = ⟨0, "No expected value provided"⟩ := by
  refine ⟨?_, (C8_extract_value true true (.ok "x")).1⟩
  refine ((C8_extract_value true true (.ok "x")).2.2.1 (PyVal.int 1)
    (PyVal.float (2001 / 2000)) rfl rfl).mpr ?_
  norm_num [PyVal.toRat, abs_lt]

/-- Claim C9: `McpClient.connect` is idempotent on a connected client: with
the connected flag set and a live session, a second `connect` returns the
existing session with the client state unchanged and no subprocess spawned
(regardless of what a new handshake would have produced); with the flag set
but no session, it raises `RuntimeError("Client is marked as connected but
session is None")`, again without spawning or mutating state. -/
theorem C9_connect_idempotent (server_name : String) (st : McpClientState)
    (outcome : ConnectOutcome) :
    (∀ s, st.connected = true → st.session = some s →
      mcp_client_connect server_name st outcome = (.ok s, st, []))
    ∧ (st.connected = true → st.session = none →
      mcp_client_connect server_name st outcome =
        (.error "Client is marked as connected but session is None", st, [])) := by
  constructor
  · intro s hcon hsess
    simp [mcp_client_connect, hcon, hsess]
  · intro hcon hsess
    simp [mcp_client_connect, hcon, hsess]

/-- Witness for C9: a connected client with session handle 5, given a
handshake oracle that would fail, still returns the live session untouched
— evaluated concretely through the theorem. -/
theorem C9_witness :
    mcp_client_connect "fs" ⟨true, some 5, some 1, some 2, some ""⟩ (.failure "spawn failed") =
      (.ok 5, ⟨true, some 5, some 1, some 2, some ""⟩, []) :=
  (C9_connect_idempotent "fs" ⟨true, some 5, some 1, some 2, some ""⟩
    (.failure "spawn failed")).1 5 rfl rfl

end Lev
